import Mathlib

/-!
# Verification of the Hap frame codec (`src/XCodePlugin/hap/hap.c`)

Shallow embedding of the Hap container-format codec.  Byte buffers are
modelled as `List Nat`; every read of a byte goes through `byteAt`, which
truncates to `% 256` exactly as a `uint8_t` load does.  Machine-integer
truncation (`uint32_t` casts, the `uint32_t` addition in the section-header
bounds check) is written with explicit `% 4294967296`.

`hap.h` is not part of the repository sources, and the Snappy library is an
external collaborator; both are modelled from the spec (see the doc comments
on `HapResult`, the `HapTextureFormat_*` / `HapCompressor*` constants and
`SnappyLib`).  NULL pointer arguments are modelled with `Option` / `Bool`
flags, and the two output parameters of `HapDecode` are reported as
`Option Nat` values (`none` means the callee never stored through the
pointer).
-/

/-- Modelled from the spec: the `HapResult` status enumeration comes from
`hap.h`, which is not under `src/`.  The spec (§6) fixes the five values as a
"stable small enumeration"; only their identities matter to the code. -/
inductive HapResult where
  | No_Error
  | Bad_Arguments
  | Buffer_Too_Small
  | Bad_Frame
  | Internal_Error
  deriving DecidableEq

/-- Modelled from the spec: the external Snappy library reports a status; the
codec distinguishes `SNAPPY_INVALID_INPUT` from any other failure.  A failing
call is an `Except.error` carrying this value. -/
inductive SnappyError where
  | invalidInput
  | other
  deriving DecidableEq

/-- Modelled from the spec: the general-purpose byte compressor is an external
black box with `compress`, `decompress`, `max-compressed-length` and
`decompressed-length` operations and a binary-or-error result (spec §1 "OUT of
scope").  The capacity arguments the C code passes to `snappy_compress` /
`snappy_uncompress` are always sufficient for a compressor meeting its
`max_compressed_length` bound, so they are omitted here; `compress` returning
`none` models any non-`SNAPPY_OK` status (the encoder maps them all to
`Internal_Error`). -/
structure SnappyLib where
  max_compressed_length : Nat → Nat
  compress : List Nat → Option (List Nat)
  uncompressed_length : List Nat → Except SnappyError Nat
  uncompress : List Nat → Except SnappyError (List Nat)

/-- A `uint8_t` load from a byte buffer: out-of-range reads (undefined
behaviour in C) default to `0`, and values are truncated to one byte. -/
def byteAt (buffer : List Nat) (i : Nat) : Nat :=
  buffer.getD i 0 % 256

/-- `memcpy(dst + offset, src, src.length)` on a flat byte buffer. -/
def writeBytes (dst : List Nat) (offset : Nat) (src : List Nat) : List Nat :=
  dst.take offset ++ src ++ dst.drop (offset + src.length)

/-! ## Hap constants (`hap.c` lines 34-71) -/

abbrev kHapUInt24Max : Nat := 0x00FFFFFF

abbrev kHapCompressorNone : Nat := 0xA
abbrev kHapCompressorSnappy : Nat := 0xB
abbrev kHapCompressorComplex : Nat := 0xC

abbrev kHapFormatRGBDXT1 : Nat := 0xB
abbrev kHapFormatRGBADXT5 : Nat := 0xE
abbrev kHapFormatYCoCgDXT5 : Nat := 0xF

abbrev kHapSectionDecodeInstructionsContainer : Nat := 0x01
abbrev kHapSectionChunkSecondStageCompressorTable : Nat := 0x02
abbrev kHapSectionChunkSizeTable : Nat := 0x03
abbrev kHapSectionChunkOffsetTable : Nat := 0x04

/-- Modelled from the spec: API texture-format constants from the missing
`hap.h`.  Only that they are pairwise distinct and non-zero matters (the code
uses `0` as the "unrecognised" sentinel). -/
abbrev HapTextureFormat_RGB_DXT1 : Nat := 0x83F0

/-- Modelled from the spec: API texture-format constant from `hap.h`. -/
abbrev HapTextureFormat_RGBA_DXT5 : Nat := 0x83F3

/-- Modelled from the spec: API texture-format constant from `hap.h`. -/
abbrev HapTextureFormat_YCoCg_DXT5 : Nat := 0x01

/-- Modelled from the spec: API compressor-preference constant from `hap.h`. -/
abbrev HapCompressorNone : Nat := 0xA

/-- Modelled from the spec: API compressor-preference constant from `hap.h`. -/
abbrev HapCompressorSnappy : Nat := 0xB

/-! ## Little-endian byte codecs (`hap.c` lines 89-118) -/

/-- `hap_read_3_byte_uint` (lines 89-92). -/
def hap_read_3_byte_uint (buffer : List Nat) : Nat :=
  byteAt buffer 0 + byteAt buffer 1 * 256 + byteAt buffer 2 * 65536

/-- `hap_write_3_byte_uint` (lines 94-99): the three bytes stored. -/
def hap_write_3_byte_uint (value : Nat) : List Nat :=
  [value % 256, value / 256 % 256, value / 65536 % 256]

/-- `hap_read_4_byte_uint` (lines 101-104). -/
def hap_read_4_byte_uint (buffer : List Nat) : Nat :=
  byteAt buffer 0 + byteAt buffer 1 * 256 + byteAt buffer 2 * 65536 +
    byteAt buffer 3 * 16777216

/-- `hap_write_4_byte_uint` (lines 106-112): the four bytes stored. -/
def hap_write_4_byte_uint (value : Nat) : List Nat :=
  [value % 256, value / 256 % 256, value / 65536 % 256, value / 16777216 % 256]

/-- `hap_top_4_bits` macro (line 114): `((x) & 0xF0) >> 4`. -/
def hap_top_4_bits (x : Nat) : Nat := x / 16 % 16

/-- `hap_bottom_4_bits` macro (line 116): `(x) & 0x0F`. -/
def hap_bottom_4_bits (x : Nat) : Nat := x % 16

/-- `hap_4_bit_packed_byte` macro (line 118): `((top) << 4) | ((bottom) & 0x0F)`;
the call sites only pass `top < 16`, for which the bitwise-or is addition. -/
def hap_4_bit_packed_byte (top_bits bottom_bits : Nat) : Nat :=
  top_bits * 16 + bottom_bits % 16

/-! ## Section header codec (`hap.c` lines 120-195) -/

/-- The three values `hap_read_section_header` reports through its output
parameters. -/
structure SectionHeader where
  headerLength : Nat
  sectionLength : Nat
  sectionType : Nat
  deriving DecidableEq

/-- `hap_read_section_header` (lines 120-170).  All three locals are
`uint32_t`; the bounds check `header_length + section_length > buffer_length`
is a `uint32_t` addition and therefore wraps modulo `2^32`, which is written
out explicitly. -/
def hap_read_section_header (buffer : List Nat) (buffer_length : Nat) :
    Except HapResult SectionHeader :=
  if buffer_length < 4 then .error .Bad_Frame
  else
    let sl3 := hap_read_3_byte_uint buffer
    if sl3 = 0 then
      if buffer_length < 8 then .error .Bad_Frame
      else
        let sl := hap_read_4_byte_uint (buffer.drop 4)
        if (8 + sl) % 4294967296 > buffer_length then .error .Bad_Frame
        else .ok ⟨8, sl, byteAt buffer 3⟩
    else
      if (4 + sl3) % 4294967296 > buffer_length then .error .Bad_Frame
      else .ok ⟨4, sl3, byteAt buffer 3⟩

/-- `hap_write_section_header` (lines 172-195): the `header_length` bytes
stored at the start of the destination buffer. -/
def hap_write_section_header (header_length section_length section_type : Nat) :
    List Nat :=
  if header_length = 4 then
    hap_write_3_byte_uint section_length ++ [section_type % 256]
  else
    hap_write_3_byte_uint 0 ++ [section_type % 256] ++
      hap_write_4_byte_uint section_length

/-! ## Format code tables (`hap.c` lines 197-228) -/

/-- `hap_texture_format_constant_for_format_identifier` (lines 197-212). -/
def hap_texture_format_constant_for_format_identifier (identifier : Nat) : Nat :=
  if identifier = kHapFormatRGBDXT1 then HapTextureFormat_RGB_DXT1
  else if identifier = kHapFormatRGBADXT5 then HapTextureFormat_RGBA_DXT5
  else if identifier = kHapFormatYCoCgDXT5 then HapTextureFormat_YCoCg_DXT5
  else 0

/-- `hap_texture_format_identifier_for_format_constant` (lines 214-228). -/
def hap_texture_format_identifier_for_format_constant (constant : Nat) : Nat :=
  if constant = HapTextureFormat_RGB_DXT1 then kHapFormatRGBDXT1
  else if constant = HapTextureFormat_RGBA_DXT5 then kHapFormatRGBADXT5
  else if constant = HapTextureFormat_YCoCg_DXT5 then kHapFormatYCoCgDXT5
  else 0

/-- `HapMaxEncodedLength` (lines 230-239). -/
def HapMaxEncodedLength (S : SnappyLib) (inputBytes : Nat) : Nat :=
  let compressedLength := S.max_compressed_length inputBytes
  (if compressedLength < inputBytes then inputBytes else compressedLength) + 8

/-! ## Frame encoder (`hap.c` lines 241-339) -/

/-- The `maxCompressedLength` local of `HapEncode` (lines 270-275): the
compressor's worst case for a Snappy preference, the raw size otherwise,
clamped from below by the raw size. -/
def hapMaxCompressedLength (S : SnappyLib) (compressor inputLength : Nat) : Nat :=
  let maxCompressedLength0 :=
    if compressor = HapCompressorSnappy then S.max_compressed_length inputLength
    else inputLength
  if maxCompressedLength0 < inputLength then inputLength else maxCompressedLength0

/-- The `headerLength` local of `HapEncode` (lines 284-291): an eight-byte
header exactly when the raw length exceeds the 24-bit maximum. -/
def hapHeaderLength (inputLength : Nat) : Nat :=
  if inputLength > kHapUInt24Max then 8 else 4

/-- The observable effects of one `HapEncode` call: the status, the meaningful
prefix of the destination buffer (header followed by the stored payload;
empty on failure paths, which write nothing), and the value stored through
`outputBufferBytesUsed` (`none` when nothing was stored). -/
structure EncodeOutcome where
  result : HapResult
  frame : List Nat
  bytesUsed : Option Nat
  deriving DecidableEq

/-- `HapEncode` (lines 241-339).  `inputBuffer = none` models a NULL input
pointer (the list carries `inputBufferBytes` as its length);
`outputBufferPresent = false` models a NULL `outputBuffer`;
`outputBufferBytesUsedPresent` tells whether the optional
`outputBufferBytesUsed` pointer was supplied.  The Snappy compression step
returns `none` for any non-`SNAPPY_OK` status. -/
def HapEncode (S : SnappyLib) (inputBuffer : Option (List Nat))
    (textureFormat : Nat) (compressor : Nat) (outputBufferPresent : Bool)
    (outputBufferBytes : Nat) (outputBufferBytesUsedPresent : Bool) :
    EncodeOutcome :=
  match inputBuffer with
  | none => ⟨.Bad_Arguments, [], none⟩
  | some input =>
    -- lines 253-268: argument validation
    if input.length = 0
        ∨ (textureFormat ≠ HapTextureFormat_RGB_DXT1
            ∧ textureFormat ≠ HapTextureFormat_RGBA_DXT5
            ∧ textureFormat ≠ HapTextureFormat_YCoCg_DXT5)
        ∨ (compressor ≠ HapCompressorNone ∧ compressor ≠ HapCompressorSnappy) then
      ⟨.Bad_Arguments, [], none⟩
    else
      -- lines 270-275: worst-case compressed size, clamped to the input size
      let maxCompressedLength := hapMaxCompressedLength S compressor input.length
      -- lines 284-291: header length from the worst-case (uncompressed) size
      let headerLength := hapHeaderLength input.length
      -- lines 293-298: capacity / NULL-destination check
      if outputBufferBytes < maxCompressedLength + headerLength
          ∨ outputBufferPresent = false then
        ⟨.Buffer_Too_Small, [], none⟩
      else
        -- lines 301-317: optional Snappy compression; storedLength = 0 for
        -- the HapCompressorNone preference
        match (if compressor = HapCompressorSnappy then
                 (S.compress input).map (fun c => (c.length, c))
               else some (0, [])) with
        | none => ⟨.Internal_Error, [], none⟩
        | some (storedLength0, compressedBytes) =>
          -- lines 319-327: store-uncompressed fallback
          let stored :=
            if storedLength0 = 0 ∨ storedLength0 ≥ input.length then
              (input.length, kHapCompressorNone, input)
            else (storedLength0, kHapCompressorSnappy, compressedBytes)
          -- lines 329-338
          let storedFormat := hap_texture_format_identifier_for_format_constant textureFormat
          ⟨.No_Error,
           hap_write_section_header headerLength stored.1
               (hap_4_bit_packed_byte stored.2.1 storedFormat) ++ stored.2.2,
           if outputBufferBytesUsedPresent then some (stored.1 + headerLength) else none⟩

/-! ## Chunk decoding (`hap.c` lines 76-83, 341-377, 520-609) -/

/-- `HapChunkDecodeInfo` (lines 76-83).  `compressed_chunk_data` is the view
of the input from the chunk pointer onward; `uncompressed_chunk_offset` is the
offset of `uncompressed_chunk_data` inside the destination buffer. -/
structure HapChunkDecodeInfo where
  result : HapResult
  compressor : Nat
  compressed_chunk_data : List Nat
  compressed_chunk_size : Nat
  uncompressed_chunk_offset : Nat
  uncompressed_chunk_size : Nat
  deriving DecidableEq

/-- `hap_decode_chunk` (lines 341-377) acting on one chunk: returns the
chunk's `result` field and the updated destination buffer. -/
def hap_decode_chunk (S : SnappyLib) (out : List Nat) (c : HapChunkDecodeInfo) :
    HapResult × List Nat :=
  if c.compressor = kHapCompressorSnappy then
    match S.uncompress (c.compressed_chunk_data.take c.compressed_chunk_size) with
    | .error .invalidInput => (.Bad_Frame, out)
    | .error .other => (.Internal_Error, out)
    | .ok u => (.No_Error, writeBytes out c.uncompressed_chunk_offset u)
  else if c.compressor = kHapCompressorNone then
    (.No_Error,
     writeBytes out c.uncompressed_chunk_offset
       (c.compressed_chunk_data.take c.compressed_chunk_size))
  else (.Bad_Frame, out)

/-- Modelled from the spec: the caller-supplied dispatch callback (spec §5,
§6 "Chunk dispatch contract") is outside the sources; it must invoke the work
function `hap_decode_chunk` once per index in `[0, count)`.  It is modelled
here as the sequential in-order execution, returning every chunk's `result`
and the final destination buffer. -/
def runChunks (S : SnappyLib) (out : List Nat) :
    List HapChunkDecodeInfo → List HapResult × List Nat
  | [] => ([], out)
  | c :: rest =>
    let r := hap_decode_chunk S out c
    let rs := runChunks S r.2 rest
    (r.1 :: rs.1, rs.2)

/-- The descriptor-building loop of `HapDecode` (lines 536-580).  `remaining`
counts the iterations still to run (`chunk_count - i` for the C loop
counter `i`); `rc` and `ru` are `running_compressed_chunk_size` and
`running_uncompressed_chunk_size`.  Returns the built descriptors and the
final `running_uncompressed_chunk_size`; a failing
`snappy_uncompressed_length` query aborts the loop with the error the C code
selects. -/
def buildChunks (S : SnappyLib) (compressors chunk_sizes : List Nat)
    (chunk_offsets : Option (List Nat)) (frame_data : List Nat) :
    Nat → Nat → Nat → Nat → Except HapResult (List HapChunkDecodeInfo × Nat)
  | 0, _, _, ru => .ok ([], ru)
  | remaining + 1, i, rc, ru =>
    let comp := byteAt compressors i
    let csize := hap_read_4_byte_uint (chunk_sizes.drop (i * 4))
    let cdata :=
      match chunk_offsets with
      | some offs => frame_data.drop (hap_read_4_byte_uint (offs.drop (i * 4)))
      | none => frame_data.drop rc
    match (if comp = kHapCompressorSnappy then
             S.uncompressed_length (cdata.take csize)
           else .ok csize) with
    | .error .invalidInput => .error .Bad_Frame
    | .error .other => .error .Internal_Error
    | .ok us =>
      match buildChunks S compressors chunk_sizes chunk_offsets frame_data
          remaining (i + 1) (rc + csize) (ru + us) with
      | .error e => .error e
      | .ok (rest, total) => .ok (⟨.No_Error, comp, cdata, csize, ru, us⟩ :: rest, total)

/-! ## Decode Instructions Container scan (`hap.c` lines 470-510) -/

/-- The four locals of the section scan loop: the three table pointers
(`none` = still NULL) and `chunk_count`. -/
structure ScanState where
  compressors : Option (List Nat)
  chunk_sizes : Option (List Nat)
  chunk_offsets : Option (List Nat)
  chunk_count : Nat
  deriving DecidableEq

/-- The chunk count a recognised child section implies: its byte length for
the Compressor Table, its length divided by 4 for the Chunk Size and Chunk
Offset Tables, `0` otherwise (`section_chunk_count` in the `switch` at lines
478-494). -/
def sectionImpliedCount (sh : SectionHeader) : Nat :=
  if sh.sectionType = kHapSectionChunkSecondStageCompressorTable then sh.sectionLength
  else if sh.sectionType = kHapSectionChunkSizeTable then sh.sectionLength / 4
  else if sh.sectionType = kHapSectionChunkOffsetTable then sh.sectionLength / 4
  else 0

/-- One pass of the `while (bytes_remaining > 0)` loop (lines 470-510),
recursing structurally on a fuel counter.  `scanSections` below starts the
fuel at `bytes_remaining`, which always suffices: every iteration consumes a
header of at least 4 bytes, so the loop runs at most `bytes_remaining`
times and the fuel-exhaustion branch is unreachable.  (When
`header_length + section_length` wraps the `uint32_t` bounds check, the C
loop would advance `sectionStart` past the buffer and read out of bounds —
undefined behaviour; the `Nat` truncated subtraction here simply ends the
scan.) -/
def scanGo : Nat → List Nat → Nat → ScanState → Except HapResult ScanState
  | 0, _, _, st => .ok st
  | fuel + 1, view, bytes_remaining, st =>
    if bytes_remaining = 0 then .ok st
    else
      match hap_read_section_header view bytes_remaining with
      | .error e => .error e
      | .ok sh =>
        let body := view.drop sh.headerLength
        -- lines 478-494: remember the table position for a recognised kind
        let st1 :=
          if sh.sectionType = kHapSectionChunkSecondStageCompressorTable then
            { st with compressors := some body }
          else if sh.sectionType = kHapSectionChunkSizeTable then
            { st with chunk_sizes := some body }
          else if sh.sectionType = kHapSectionChunkOffsetTable then
            { st with chunk_offsets := some body }
          else st
        let scc := sectionImpliedCount sh
        -- lines 496-506: consistency of implied chunk counts
        if scc ≠ 0 ∧ st.chunk_count ≠ 0 ∧ scc ≠ st.chunk_count then
          .error .Bad_Frame
        else
          scanGo fuel (body.drop sh.sectionLength)
            (bytes_remaining - (sh.headerLength + sh.sectionLength))
            (if scc ≠ 0 then { st1 with chunk_count := scc } else st1)

/-- The full Decode Instructions Container scan (lines 470-510), starting
from the container payload and its length. -/
def scanSections (view : List Nat) (bytes_remaining : Nat) (st : ScanState) :
    Except HapResult ScanState :=
  scanGo bytes_remaining view bytes_remaining st

/-! ## Frame decoder (`hap.c` lines 379-662) -/

/-- The observable effects of one `HapDecode` call: the status, the final
contents of the destination buffer (`none` when the destination pointer was
NULL), the values stored through `outputBufferBytesUsed` and
`outputBufferTextureFormat` (`none` = never stored), and whether the
caller-supplied dispatch callback was invoked. -/
structure DecodeOutcome where
  result : HapResult
  output : Option (List Nat)
  bytesUsedOut : Option Nat
  textureFormatOut : Option Nat
  callbackInvoked : Bool
  deriving DecidableEq

/-- The `kHapCompressorComplex` branch of `HapDecode` (lines 433-616 and the
shared epilogue 653-661).  `input` is the whole frame, `h1` its parsed
top-level header, `out` the destination buffer (its length is the capacity),
`fmtConst` the texture-format constant already stored through
`outputBufferTextureFormat`. -/
def hapDecodeComplex (S : SnappyLib) (input : List Nat) (h1 : SectionHeader)
    (out : List Nat) (busPresent : Bool) (fmtConst : Nat) : DecodeOutcome :=
  let sectionStart := input.drop h1.headerLength
  -- line 447: read the Decode Instructions Container header
  match hap_read_section_header sectionStart
      ((input.length - h1.headerLength) % 4294967296) with
  | .error e => ⟨e, some out, none, some fmtConst, false⟩
  | .ok h2 =>
    if h2.sectionType ≠ kHapSectionDecodeInstructionsContainer then
      ⟨.Bad_Frame, some out, none, some fmtConst, false⟩
    else
      -- line 462: frame data follows the container
      let frame_data := sectionStart.drop (h2.headerLength + h2.sectionLength)
      -- lines 467-510: scan the container's child sections
      match scanSections (sectionStart.drop h2.headerLength) h2.sectionLength
          ⟨none, none, none, 0⟩ with
      | .error e => ⟨e, some out, none, some fmtConst, false⟩
      | .ok st =>
        -- lines 512-518: the two mandatory tables
        match st.compressors with
        | none => ⟨.Bad_Frame, some out, none, some fmtConst, false⟩
        | some compressors =>
        match st.chunk_sizes with
        | none => ⟨.Bad_Frame, some out, none, some fmtConst, false⟩
        | some chunk_sizes =>
          if st.chunk_count > 0 then
            -- lines 520-580: build the chunk descriptors
            match buildChunks S compressors chunk_sizes st.chunk_offsets
                frame_data st.chunk_count 0 0 0 with
            | .error e => ⟨e, some out, none, some fmtConst, false⟩
            | .ok (chunks, total) =>
              -- lines 582-585: single capacity check before decompression
              if total > out.length then
                ⟨.Buffer_Too_Small, some out, none, some fmtConst, false⟩
              else
                -- lines 587-607: dispatch, then report the first chunk error
                let run := runChunks S out chunks
                match run.1.find? (fun r => r != HapResult.No_Error) with
                | some e => ⟨e, some run.2, none, some fmtConst, true⟩
                | none =>
                  ⟨.No_Error, some run.2,
                   if busPresent then some total else none, some fmtConst, true⟩
          else
            -- chunk_count = 0: fall through to the epilogue with bytesUsed = 0
            ⟨.No_Error, some out, if busPresent then some 0 else none,
             some fmtConst, false⟩

/-- The `kHapCompressorSnappy` branch of `HapDecode` (lines 617-636 and the
epilogue 653-661): one Snappy block fills the whole destination. -/
def hapDecodeSnappySingle (S : SnappyLib) (sectionStart : List Nat)
    (sectionLength : Nat) (out : List Nat) (busPresent : Bool)
    (fmtConst : Nat) : DecodeOutcome :=
  match S.uncompressed_length (sectionStart.take sectionLength) with
  | .error _ => ⟨.Internal_Error, some out, none, some fmtConst, false⟩
  | .ok n =>
    if n > out.length then ⟨.Buffer_Too_Small, some out, none, some fmtConst, false⟩
    else
      match S.uncompress (sectionStart.take sectionLength) with
      | .error _ => ⟨.Internal_Error, some out, none, some fmtConst, false⟩
      | .ok u =>
        ⟨.No_Error, some (writeBytes out 0 u),
         if busPresent then some u.length else none, some fmtConst, false⟩

/-- The `kHapCompressorNone` branch of `HapDecode` (lines 637-648 and the
epilogue 653-661): the payload is copied verbatim. -/
def hapDecodeNoneSingle (sectionStart : List Nat) (sectionLength : Nat)
    (out : List Nat) (busPresent : Bool) (fmtConst : Nat) : DecodeOutcome :=
  if sectionLength > out.length then
    ⟨.Buffer_Too_Small, some out, none, some fmtConst, false⟩
  else
    ⟨.No_Error, some (writeBytes out 0 (sectionStart.take sectionLength)),
     if busPresent then some sectionLength else none, some fmtConst, false⟩

/-- `HapDecode` (lines 379-662).  `inputBuffer = none` / `outputBuffer = none`
model NULL buffer pointers (list lengths carry `inputBufferBytes` /
`outputBufferBytes`); `callbackPresent` / `textureFormatPresent` model the
`callback` and `outputBufferTextureFormat` pointers checked at lines 397-404;
`busPresent` tells whether the optional `outputBufferBytesUsed` pointer was
supplied.  The cast `(uint32_t)inputBufferBytes` at line 409 is the
`% 4294967296`. -/
def HapDecode (S : SnappyLib) (inputBuffer : Option (List Nat))
    (callbackPresent : Bool) (outputBuffer : Option (List Nat))
    (busPresent : Bool) (textureFormatPresent : Bool) : DecodeOutcome :=
  match inputBuffer, outputBuffer with
  | some input, some out =>
    if callbackPresent = false ∨ textureFormatPresent = false then
      ⟨.Bad_Arguments, some out, none, none, false⟩
    else
      -- lines 406-414: top-level section header
      match hap_read_section_header input (input.length % 4294967296) with
      | .error e => ⟨e, some out, none, none, false⟩
      | .ok h1 =>
        -- lines 419-429: unpack the type byte, store the format constant
        let fmtConst := hap_texture_format_constant_for_format_identifier
          (hap_bottom_4_bits h1.sectionType)
        if fmtConst = 0 then ⟨.Bad_Frame, some out, none, some 0, false⟩
        else
          let sectionStart := input.drop h1.headerLength
          if hap_top_4_bits h1.sectionType = kHapCompressorComplex then
            hapDecodeComplex S input h1 out busPresent fmtConst
          else if hap_top_4_bits h1.sectionType = kHapCompressorSnappy then
            hapDecodeSnappySingle S sectionStart h1.sectionLength out busPresent fmtConst
          else if hap_top_4_bits h1.sectionType = kHapCompressorNone then
            hapDecodeNoneSingle sectionStart h1.sectionLength out busPresent fmtConst
          else ⟨.Bad_Frame, some out, none, some fmtConst, false⟩
  | _, ob => ⟨.Bad_Arguments, ob, none, none, false⟩

/-- `HapGetFrameTextureFormat` (lines 664-698): returns the status and the
value stored through `outputBufferTextureFormat` (`none` = never stored). -/
def HapGetFrameTextureFormat (inputBuffer : Option (List Nat))
    (textureFormatPresent : Bool) : HapResult × Option Nat :=
  match inputBuffer with
  | none => (.Bad_Arguments, none)
  | some input =>
    if textureFormatPresent = false then (.Bad_Arguments, none)
    else
      match hap_read_section_header input (input.length % 4294967296) with
      | .error e => (e, none)
      | .ok h =>
        let f := hap_texture_format_constant_for_format_identifier
          (hap_bottom_4_bits h.sectionType)
        if f = 0 then (.Bad_Frame, some f) else (.No_Error, some f)

/-- A small concrete stand-in for the external Snappy library, used to
instantiate theorems at concrete inputs: it "compresses" `[7, 7, 7, 7]` to
`[7]` and stores everything else verbatim. -/
def toySnappy : SnappyLib where
  max_compressed_length := fun n => n + 32
  compress := fun x => if x = [7, 7, 7, 7] then some [7] else some x
  uncompressed_length := fun y => if y = [7] then .ok 4 else .ok y.length
  uncompress := fun y => if y = [7] then .ok [7, 7, 7, 7] else .ok y

deriving instance DecidableEq for Except

/-! ## Helper lemmas about the section header codec -/

theorem hap_write_section_header_four (sl ty : Nat) :
    hap_write_section_header 4 sl ty =
      sl % 256 :: sl / 256 % 256 :: sl / 65536 % 256 :: [ty % 256] := by
  simp [hap_write_section_header, hap_write_3_byte_uint]

theorem hap_write_section_header_eight (sl ty : Nat) :
    hap_write_section_header 8 sl ty =
      0 :: 0 :: 0 :: ty % 256 :: sl % 256 :: sl / 256 % 256 :: sl / 65536 % 256 ::
        [sl / 16777216 % 256] := by
  simp [hap_write_section_header, hap_write_3_byte_uint, hap_write_4_byte_uint]

theorem hap_write_section_header_length (hl sl ty : Nat) (h : hl = 4 ∨ hl = 8) :
    (hap_write_section_header hl sl ty).length = hl := by
  rcases h with h | h <;> subst h
  · simp [hap_write_section_header_four]
  · simp [hap_write_section_header_eight]

theorem hap_write_section_header_append_drop (hl sl ty : Nat) (rest : List Nat)
    (h : hl = 4 ∨ hl = 8) :
    (hap_write_section_header hl sl ty ++ rest).drop hl = rest := by
  rcases h with h | h <;> subst h
  · rw [hap_write_section_header_four]; rfl
  · rw [hap_write_section_header_eight]; rfl

/-- Reading back a four-byte header written by `hap_write_section_header`. -/
theorem hap_read_section_header_write_four (sl ty bl : Nat) (rest : List Nat)
    (h0 : 0 < sl) (h1 : sl ≤ 16777215) (h2 : 4 + sl ≤ bl) :
    hap_read_section_header (hap_write_section_header 4 sl ty ++ rest) bl =
      .ok ⟨4, sl, ty % 256⟩ := by
  rw [hap_write_section_header_four]
  simp only [List.cons_append, List.nil_append]
  have hr3 : hap_read_3_byte_uint
      (sl % 256 :: sl / 256 % 256 :: sl / 65536 % 256 :: ty % 256 :: rest) = sl := by
    show sl % 256 % 256 + sl / 256 % 256 % 256 * 256 + sl / 65536 % 256 % 256 * 65536 = sl
    omega
  have hb3 : byteAt
      (sl % 256 :: sl / 256 % 256 :: sl / 65536 % 256 :: ty % 256 :: rest) 3 = ty % 256 := by
    show ty % 256 % 256 = ty % 256
    omega
  have hmod : (4 + sl) % 4294967296 = 4 + sl := Nat.mod_eq_of_lt (by omega)
  simp only [hap_read_section_header, hr3, hb3, hmod]
  split_ifs <;> first | rfl | omega

/-- Reading back an eight-byte header written by `hap_write_section_header`. -/
theorem hap_read_section_header_write_eight (sl ty bl : Nat) (rest : List Nat)
    (h1 : sl ≤ 4294967287) (h2 : 8 + sl ≤ bl) :
    hap_read_section_header (hap_write_section_header 8 sl ty ++ rest) bl =
      .ok ⟨8, sl, ty % 256⟩ := by
  rw [hap_write_section_header_eight]
  simp only [List.cons_append, List.nil_append]
  have hr3 : hap_read_3_byte_uint
      (0 :: 0 :: 0 :: ty % 256 :: sl % 256 :: sl / 256 % 256 :: sl / 65536 % 256 ::
        sl / 16777216 % 256 :: rest) = 0 := by
    show 0 % 256 + 0 % 256 * 256 + 0 % 256 * 65536 = 0
    omega
  have hr4 : hap_read_4_byte_uint
      ((0 :: 0 :: 0 :: ty % 256 :: sl % 256 :: sl / 256 % 256 :: sl / 65536 % 256 ::
        sl / 16777216 % 256 :: rest).drop 4) = sl := by
    show sl % 256 % 256 + sl / 256 % 256 % 256 * 256 + sl / 65536 % 256 % 256 * 65536 +
      sl / 16777216 % 256 % 256 * 16777216 = sl
    omega
  have hb3 : byteAt
      (0 :: 0 :: 0 :: ty % 256 :: sl % 256 :: sl / 256 % 256 :: sl / 65536 % 256 ::
        sl / 16777216 % 256 :: rest) 3 = ty % 256 := by
    show ty % 256 % 256 = ty % 256
    omega
  have hmod : (8 + sl) % 4294967296 = 8 + sl := Nat.mod_eq_of_lt (by omega)
  simp only [hap_read_section_header, hr3, hr4, hb3, hmod]
  split_ifs <;> first | rfl | omega

/-! ## Claim C2 — the section-header contract and its overflowing bounds check -/

/-- C2: the final clause of the `hap_read_section_header` contract — "fails
with `Bad_Frame` if `header_len + section_len > buffer_len`" — is violated by
the code: the check is a `uint32_t` addition, so for the 8-byte buffer
`00 00 00 01 FF FF FF FF` the sum `8 + 0xFFFFFFFF` wraps to `7`, the check
passes, and the function returns `No_Error` with a section length of
`0xFFFFFFFF` even though `8 + 0xFFFFFFFF > 8`.  This contradicts the code's
own comment "Verify the section does not extend beyond the buffer". -/
theorem hap_read_section_header_bounds_check_wraps :
    hap_read_section_header [0, 0, 0, 1, 255, 255, 255, 255] 8 =
      .ok ⟨8, 4294967295, 1⟩ ∧ 8 + 4294967295 > 8 := by
  exact ⟨by decide, by decide⟩

/-! ## Claim C10 — peeking the texture format ignores the compressor nibble -/

/-- C10: `HapGetFrameTextureFormat` never inspects the compressor nibble:
whenever the top-level header parses and the format nibble maps to a
recognised constant, it returns `No_Error` and stores that constant — for
every value of the top four bits of the type byte, including compressor codes
`HapDecode` would reject with `Bad_Frame`. -/
theorem HapGetFrameTextureFormat_ignores_compressor (input : List Nat)
    (h : SectionHeader)
    (hp : hap_read_section_header input (input.length % 4294967296) = .ok h)
    (hf : hap_texture_format_constant_for_format_identifier
        (hap_bottom_4_bits h.sectionType) ≠ 0) :
    HapGetFrameTextureFormat (some input) true =
      (.No_Error,
       some (hap_texture_format_constant_for_format_identifier
         (hap_bottom_4_bits h.sectionType))) := by
  simp only [HapGetFrameTextureFormat, hp]
  simp [hf]

/-- Witness for C10: a frame whose type byte `0x5B` carries compressor nibble
`0x5` — a value the decoder rejects — still yields `No_Error` and the
`RGB_DXT1` constant from the peek operation. -/
theorem HapGetFrameTextureFormat_ignores_compressor_witness :
    hap_texture_format_constant_for_format_identifier (hap_bottom_4_bits 91) ≠ 0
    ∧ HapGetFrameTextureFormat (some [1, 0, 0, 91, 9]) true = (.No_Error, some 33776)
    ∧ (HapDecode toySnappy (some [1, 0, 0, 91, 9]) true (some [0]) true true).result
        = .Bad_Frame := by
  refine ⟨by decide, ?_, by decide⟩
  exact HapGetFrameTextureFormat_ignores_compressor [1, 0, 0, 91, 9] ⟨4, 1, 91⟩
    (by decide) (by decide)

/-! ## Claim C6 — when the decoder writes its output parameters -/

/-- Counterexample to C6 as stated: on the frame `01 00 00 A0 05` the decode
fails with `Bad_Frame` (format nibble `0x0` is unrecognised), yet the
resolved-texture-format output parameter has been written (with the sentinel
`0`): the code stores through `outputBufferTextureFormat` before it validates
the value, so the parameter is not left unchanged on every failing return. -/
theorem hapDecode_writes_format_on_failing_return :
    (HapDecode toySnappy (some [1, 0, 0, 160, 5]) true (some [0]) true true).result
        = .Bad_Frame
    ∧ (HapDecode toySnappy (some [1, 0, 0, 160, 5]) true (some [0]) true true).textureFormatOut
        = some 0
    ∧ some 0 ≠ (none : Option Nat) := by
  decide

theorem hapDecodeComplex_bytesUsed_none (S : SnappyLib) (input : List Nat)
    (h1 : SectionHeader) (out : List Nat) (bus : Bool) (f : Nat) :
    (hapDecodeComplex S input h1 out bus f).result ≠ .No_Error →
    (hapDecodeComplex S input h1 out bus f).bytesUsedOut = none := by
  simp only [hapDecodeComplex]
  repeat' split
  all_goals intro h
  all_goals first | rfl | exact absurd rfl h

theorem hapDecodeSnappySingle_bytesUsed_none (S : SnappyLib) (ss : List Nat)
    (sl : Nat) (out : List Nat) (bus : Bool) (f : Nat) :
    (hapDecodeSnappySingle S ss sl out bus f).result ≠ .No_Error →
    (hapDecodeSnappySingle S ss sl out bus f).bytesUsedOut = none := by
  unfold hapDecodeSnappySingle
  repeat' split
  all_goals intro h
  all_goals first | rfl | exact absurd rfl h

theorem hapDecodeNoneSingle_bytesUsed_none (ss : List Nat) (sl : Nat)
    (out : List Nat) (bus : Bool) (f : Nat) :
    (hapDecodeNoneSingle ss sl out bus f).result ≠ .No_Error →
    (hapDecodeNoneSingle ss sl out bus f).bytesUsedOut = none := by
  unfold hapDecodeNoneSingle
  repeat' split
  all_goals intro h
  all_goals first | rfl | exact absurd rfl h

theorem hapDecodeComplex_textureFormatOut (S : SnappyLib) (input : List Nat)
    (h1 : SectionHeader) (out : List Nat) (bus : Bool) (f : Nat) :
    (hapDecodeComplex S input h1 out bus f).textureFormatOut = some f := by
  simp only [hapDecodeComplex]
  repeat' split
  all_goals rfl

theorem hapDecodeSnappySingle_textureFormatOut (S : SnappyLib) (ss : List Nat)
    (sl : Nat) (out : List Nat) (bus : Bool) (f : Nat) :
    (hapDecodeSnappySingle S ss sl out bus f).textureFormatOut = some f := by
  unfold hapDecodeSnappySingle
  repeat' split
  all_goals rfl

theorem hapDecodeNoneSingle_textureFormatOut (ss : List Nat) (sl : Nat)
    (out : List Nat) (bus : Bool) (f : Nat) :
    (hapDecodeNoneSingle ss sl out bus f).textureFormatOut = some f := by
  unfold hapDecodeNoneSingle
  repeat' split
  all_goals rfl

/-- C6 (amended): the byte-count output parameter `outputBufferBytesUsed` is
written only when `HapDecode` returns `No_Error`, but the resolved
texture-format parameter is written whenever the top-level header parses
successfully — also on failing returns — holding the constant mapped from the
frame's format nibble (the sentinel `0` when the nibble is unrecognised). -/
theorem hapDecode_output_parameter_discipline (S : SnappyLib)
    (ib : Option (List Nat)) (cb : Bool) (ob : Option (List Nat))
    (bus tf : Bool) :
    ((HapDecode S ib cb ob bus tf).result ≠ .No_Error →
      (HapDecode S ib cb ob bus tf).bytesUsedOut = none)
    ∧ (∀ input out h1, ib = some input → ob = some out → cb = true → tf = true →
        hap_read_section_header input (input.length % 4294967296) = .ok h1 →
        (HapDecode S ib cb ob bus tf).textureFormatOut =
          some (hap_texture_format_constant_for_format_identifier
            (hap_bottom_4_bits h1.sectionType))) := by
  constructor
  · rcases ib with _ | input <;> rcases ob with _ | out
    · intro _; rfl
    · intro _; rfl
    · intro _; rfl
    · simp only [HapDecode]
      split
      · intro _; rfl
      · split
        · intro _; rfl
        · split
          · intro _; rfl
          · split
            · exact hapDecodeComplex_bytesUsed_none _ _ _ _ _ _
            · split
              · exact hapDecodeSnappySingle_bytesUsed_none _ _ _ _ _ _
              · split
                · exact hapDecodeNoneSingle_bytesUsed_none _ _ _ _ _
                · intro _; rfl
  · intro input out h1 hib hob hcb htf hp
    subst hib; subst hob; subst hcb; subst htf
    simp only [HapDecode, hp]
    split
    · simp at *
    · split
      · rename_i hf
        rw [← hf]
      · split
        · exact hapDecodeComplex_textureFormatOut _ _ _ _ _ _
        · split
          · exact hapDecodeSnappySingle_textureFormatOut _ _ _ _ _ _
          · split
            · exact hapDecodeNoneSingle_textureFormatOut _ _ _ _ _
            · rfl

/-- Witness for the amended C6 at a concrete failing decode: the frame
`01 00 00 A0 05` fails with `Bad_Frame`; the byte-count parameter is untouched
while the texture-format parameter holds the mapped sentinel `0`. -/
theorem hapDecode_output_parameter_discipline_witness :
    (HapDecode toySnappy (some [1, 0, 0, 160, 5]) true (some [0]) true true).result
        ≠ .No_Error
    ∧ (HapDecode toySnappy (some [1, 0, 0, 160, 5]) true (some [0]) true true).bytesUsedOut
        = none
    ∧ (HapDecode toySnappy (some [1, 0, 0, 160, 5]) true (some [0]) true true).textureFormatOut
        = some (hap_texture_format_constant_for_format_identifier (hap_bottom_4_bits 160)) := by
  have hd := hapDecode_output_parameter_discipline toySnappy
    (some [1, 0, 0, 160, 5]) true (some [0]) true true
  exact ⟨by decide, hd.1 (by decide),
    hd.2 [1, 0, 0, 160, 5] [0] ⟨4, 1, 160⟩ rfl rfl rfl rfl (by decide)⟩

/-! ## Claim C7 — NULL argument handling -/

/-- Counterexample to C7 as stated: an encode call whose destination buffer is
absent — all other arguments valid — returns `Buffer_Too_Small`, not
`Bad_Arguments`: `HapEncode` checks `outputBuffer == NULL` only together with
the capacity test, after the `Bad_Arguments` validation. -/
theorem hapEncode_null_output_not_bad_arguments :
    HapEncode toySnappy (some [1]) HapTextureFormat_RGB_DXT1 HapCompressorNone
        false 100 true = ⟨.Buffer_Too_Small, [], none⟩
    ∧ HapResult.Buffer_Too_Small ≠ HapResult.Bad_Arguments := by
  decide

/-- C7 (amended): `HapDecode` returns `Bad_Arguments` when any of its input
buffer, callback, destination buffer or texture-format pointer is absent, and
`HapEncode` returns `Bad_Arguments` for an absent input buffer — all before
any buffer access (no output is produced, no output parameter stored) — but an
absent encode destination yields `Buffer_Too_Small`, not `Bad_Arguments`. -/
theorem hap_null_argument_handling (S : SnappyLib) :
    (∀ ib cb ob bus tf, (ib = none ∨ cb = false ∨ ob = (none : Option (List Nat))
        ∨ tf = false) →
      HapDecode S ib cb ob bus tf = ⟨.Bad_Arguments, ob, none, none, false⟩)
    ∧ (∀ fmt comp p cap bus,
        HapEncode S none fmt comp p cap bus = ⟨.Bad_Arguments, [], none⟩)
    ∧ (∀ input fmt comp cap bus, input ≠ []
        → (fmt = HapTextureFormat_RGB_DXT1 ∨ fmt = HapTextureFormat_RGBA_DXT5
            ∨ fmt = HapTextureFormat_YCoCg_DXT5)
        → (comp = HapCompressorNone ∨ comp = HapCompressorSnappy)
        → HapEncode S (some input) fmt comp false cap bus
            = ⟨.Buffer_Too_Small, [], none⟩) := by
  refine ⟨?_, ?_, ?_⟩
  · intro ib cb ob bus tf h
    rcases ib with _ | input
    · rcases ob with _ | out <;> rfl
    · rcases ob with _ | out
      · rfl
      · rcases h with h | h | h | h
        · simp at h
        · subst h; simp [HapDecode]
        · simp at h
        · subst h; simp [HapDecode]
  · intro fmt comp p cap bus; rfl
  · intro input fmt comp cap bus hin hfmt hcomp
    rcases hfmt with rfl | rfl | rfl <;> rcases hcomp with rfl | rfl <;>
      simp [HapEncode, List.length_eq_zero, hin]

/-- Witness for the amended C7 at concrete arguments: an absent decode input
buffer, an absent encode input buffer and an absent encode destination
buffer. -/
theorem hap_null_argument_handling_witness :
    HapDecode toySnappy none true (some [0]) true true
        = ⟨.Bad_Arguments, some [0], none, none, false⟩
    ∧ HapEncode toySnappy none HapTextureFormat_RGB_DXT1 HapCompressorNone true 0 true
        = ⟨.Bad_Arguments, [], none⟩
    ∧ HapEncode toySnappy (some [1]) HapTextureFormat_RGB_DXT1 HapCompressorNone
        false 100 true = ⟨.Buffer_Too_Small, [], none⟩ := by
  refine ⟨(hap_null_argument_handling toySnappy).1 none true (some [0]) true true
      (Or.inl rfl),
    (hap_null_argument_handling toySnappy).2.1 HapTextureFormat_RGB_DXT1
      HapCompressorNone true 0 true,
    (hap_null_argument_handling toySnappy).2.2 [1] HapTextureFormat_RGB_DXT1
      HapCompressorNone 100 true (by decide) (Or.inl rfl) (Or.inl rfl)⟩

/-! ## Claim C3 — the store-uncompressed fallback of the encoder -/

/-- C3: when a Snappy-preference encode's compressor yields zero bytes or a
result at least as large as the raw input, the encoder stores the raw bytes
verbatim, records compressor `None` in the type byte, and the stored section
length equals the input length. -/
theorem hapEncode_store_uncompressed_fallback (S : SnappyLib)
    (input c : List Nat) (fmt cap : Nat)
    (hin : input ≠ [])
    (hfmt : fmt = HapTextureFormat_RGB_DXT1 ∨ fmt = HapTextureFormat_RGBA_DXT5
        ∨ fmt = HapTextureFormat_YCoCg_DXT5)
    (hcap : hapMaxCompressedLength S HapCompressorSnappy input.length
        + hapHeaderLength input.length ≤ cap)
    (hc : S.compress input = some c)
    (hfail : c.length = 0 ∨ c.length ≥ input.length) :
    HapEncode S (some input) fmt HapCompressorSnappy true cap true =
      ⟨.No_Error,
       hap_write_section_header (hapHeaderLength input.length) input.length
           (hap_4_bit_packed_byte kHapCompressorNone
             (hap_texture_format_identifier_for_format_constant fmt)) ++ input,
       some (input.length + hapHeaderLength input.length)⟩ := by
  have hlen : input.length ≠ 0 := fun h => hin (List.length_eq_zero.mp h)
  rcases hfail with hf | hf <;> rcases hfmt with rfl | rfl | rfl <;>
  · simp only [HapEncode]
    rw [if_neg (by simp [hlen])]
    rw [if_neg (by simp; omega)]
    simp [hc, hf]

/-- Witness for C3: `toySnappy` "compresses" `[5, 5]` to itself (no smaller),
so the encoder stores the two raw bytes with type byte `0xAB`
(compressor `None`, format `RGB_DXT1`) and section length 2. -/
theorem hapEncode_store_uncompressed_fallback_witness :
    HapEncode toySnappy (some [5, 5]) HapTextureFormat_RGB_DXT1 HapCompressorSnappy
        true 38 true = ⟨.No_Error, [2, 0, 0, 171, 5, 5], some 6⟩ := by
  have h := hapEncode_store_uncompressed_fallback toySnappy [5, 5] [5, 5]
    HapTextureFormat_RGB_DXT1 38 (by decide) (Or.inl rfl) (by decide) (by decide)
    (Or.inr (by decide))
  exact h.trans (by decide)

theorem format_constant_roundtrip (fmt : Nat)
    (h : fmt = HapTextureFormat_RGB_DXT1 ∨ fmt = HapTextureFormat_RGBA_DXT5
        ∨ fmt = HapTextureFormat_YCoCg_DXT5) :
    hap_texture_format_constant_for_format_identifier
      (hap_texture_format_identifier_for_format_constant fmt) = fmt := by
  rcases h with rfl | rfl | rfl <;> decide

/-- Inversion of a successful `HapEncode`: the frame is a section header over
a payload that is either the raw input (compressor `None`) or a strictly
smaller Snappy compression of it. -/
theorem HapEncode_ok_shape (S : SnappyLib) (input frame : List Nat)
    (fmt pref cap used : Nat)
    (hpref : pref = HapCompressorNone ∨ pref = HapCompressorSnappy)
    (henc : HapEncode S (some input) fmt pref true cap true
        = ⟨.No_Error, frame, some used⟩) :
    0 < input.length ∧
    ∃ payload sc,
      frame = hap_write_section_header (hapHeaderLength input.length)
          payload.length
          (hap_4_bit_packed_byte sc
            (hap_texture_format_identifier_for_format_constant fmt)) ++ payload
      ∧ used = payload.length + hapHeaderLength input.length
      ∧ ((sc = kHapCompressorNone ∧ payload = input)
         ∨ (sc = kHapCompressorSnappy ∧ S.compress input = some payload
            ∧ 0 < payload.length ∧ payload.length < input.length)) := by
  rcases hpref with rfl | rfl
  · -- preference HapCompressorNone: storedLength starts at 0, fallback fires
    simp only [HapEncode] at henc
    split at henc
    · exact absurd henc (by simp)
    · rename_i hargs
      rw [if_neg (show ¬((HapCompressorNone : Nat) = HapCompressorSnappy) from
        by decide)] at henc
      split at henc
      · exact absurd henc (by simp)
      · simp at henc
        push_neg at hargs
        exact ⟨by omega, input, kHapCompressorNone, henc.1.symm, henc.2.symm,
          Or.inl ⟨rfl, rfl⟩⟩
  · -- preference HapCompressorSnappy
    simp only [HapEncode] at henc
    split at henc
    · exact absurd henc (by simp)
    · rename_i hargs
      simp only [ite_true] at henc
      push_neg at hargs
      cases hcmp : S.compress input with
      | none =>
        rw [hcmp] at henc
        simp only [Option.map_none'] at henc
        split at henc <;> exact absurd henc (by simp)
      | some c =>
        rw [hcmp] at henc
        by_cases hsm : c.length = 0 ∨ c.length ≥ input.length
        · simp only [Option.map_some'] at henc
          split at henc
          · exact absurd henc (by simp)
          · simp [hsm] at henc
            exact ⟨by omega, input, kHapCompressorNone, henc.1.symm, henc.2.symm,
              Or.inl ⟨rfl, rfl⟩⟩
        · simp only [Option.map_some'] at henc
          split at henc
          · exact absurd henc (by simp)
          · simp [hsm] at henc
            push_neg at hsm
            exact ⟨by omega, c, kHapCompressorSnappy, henc.1.symm, henc.2.symm,
              Or.inr ⟨rfl, rfl, by omega, by omega⟩⟩

/-! ## Claim C8 — header-length choice, capacity check and length readback -/

/-- C8: a valid encode chooses an eight-byte header exactly when the raw
length exceeds `0x00FFFFFF` (else four bytes); it fails `Buffer_Too_Small`
whenever the destination capacity is below header length plus worst-case
compressed size; and parsing a successfully encoded frame — in particular one
with an eight-byte header — recovers exactly the stored section length
(`frame.length` minus the header). -/
theorem hapEncode_header_and_readback (S : SnappyLib) (input frame : List Nat)
    (fmt pref cap used : Nat)
    (hin : input ≠ [])
    (hfmt : fmt = HapTextureFormat_RGB_DXT1 ∨ fmt = HapTextureFormat_RGBA_DXT5
        ∨ fmt = HapTextureFormat_YCoCg_DXT5)
    (hpref : pref = HapCompressorNone ∨ pref = HapCompressorSnappy)
    (hlen : input.length + 8 < 4294967296) :
    hapHeaderLength input.length = (if input.length > kHapUInt24Max then 8 else 4)
    ∧ (cap < hapMaxCompressedLength S pref input.length + hapHeaderLength input.length →
        HapEncode S (some input) fmt pref true cap true = ⟨.Buffer_Too_Small, [], none⟩)
    ∧ (HapEncode S (some input) fmt pref true cap true = ⟨.No_Error, frame, some used⟩ →
        used = frame.length
        ∧ ∃ ty, hap_read_section_header frame (frame.length % 4294967296)
            = .ok ⟨hapHeaderLength input.length,
                   frame.length - hapHeaderLength input.length, ty⟩) := by
  have hlen0 : input.length ≠ 0 := fun h => hin (List.length_eq_zero.mp h)
  refine ⟨rfl, ?_, ?_⟩
  · intro hbts
    rcases hfmt with rfl | rfl | rfl <;> rcases hpref with rfl | rfl <;>
    · simp only [HapEncode]
      rw [if_neg (by simp [hlen0])]
      rw [if_pos (Or.inl hbts)]
  · intro henc
    obtain ⟨hpos, payload, sc, hframe, hused, hst⟩ :=
      HapEncode_ok_shape S input frame fmt pref cap used hpref henc
    have hplen : 0 < payload.length ∧ payload.length ≤ input.length := by
      rcases hst with ⟨-, rfl⟩ | ⟨-, -, h1, h2⟩
      · exact ⟨hpos, le_refl _⟩
      · exact ⟨h1, le_of_lt h2⟩
    by_cases hbig : input.length > kHapUInt24Max
    · have hhl : hapHeaderLength input.length = 8 := by
        simp [hapHeaderLength, hbig]
      rw [hhl] at hframe hused ⊢
      generalize hap_4_bit_packed_byte sc
        (hap_texture_format_identifier_for_format_constant fmt) = ty0 at hframe
      subst hframe
      rw [List.length_append, hap_write_section_header_length 8 payload.length ty0
        (Or.inr rfl)]
      have hmod : (8 + payload.length) % 4294967296 = 8 + payload.length :=
        Nat.mod_eq_of_lt (by omega)
      rw [hmod]
      refine ⟨by omega, ty0 % 256, ?_⟩
      have hsub : 8 + payload.length - 8 = payload.length := by omega
      rw [hsub]
      exact hap_read_section_header_write_eight payload.length ty0
        (8 + payload.length) payload (by omega) (by omega)
    · have hhl : hapHeaderLength input.length = 4 := by
        simp [hapHeaderLength, hbig]
      simp only [kHapUInt24Max, gt_iff_lt, not_lt] at hbig
      rw [hhl] at hframe hused ⊢
      generalize hap_4_bit_packed_byte sc
        (hap_texture_format_identifier_for_format_constant fmt) = ty0 at hframe
      subst hframe
      rw [List.length_append, hap_write_section_header_length 4 payload.length ty0
        (Or.inl rfl)]
      have hmod : (4 + payload.length) % 4294967296 = 4 + payload.length :=
        Nat.mod_eq_of_lt (by omega)
      rw [hmod]
      refine ⟨by omega, ty0 % 256, ?_⟩
      have hsub : 4 + payload.length - 4 = payload.length := by omega
      rw [hsub]
      exact hap_read_section_header_write_four payload.length ty0
        (4 + payload.length) payload (by omega) (by omega) (by omega)


/-- Witness for C8: a three-byte encode fails `Buffer_Too_Small` at capacity
0 and, at capacity 100, yields the frame `03 00 00 AB 01 02 03` whose parse
recovers the four-byte header and the exact stored section length 3. -/
theorem hapEncode_header_and_readback_witness :
    HapEncode toySnappy (some [1, 2, 3]) HapTextureFormat_RGB_DXT1 HapCompressorNone
        true 0 true = ⟨.Buffer_Too_Small, [], none⟩
    ∧ (7 = ([3, 0, 0, 171, 1, 2, 3] : List Nat).length
       ∧ ∃ ty, hap_read_section_header [3, 0, 0, 171, 1, 2, 3]
           (([3, 0, 0, 171, 1, 2, 3] : List Nat).length % 4294967296)
           = .ok ⟨hapHeaderLength ([1, 2, 3] : List Nat).length,
                  ([3, 0, 0, 171, 1, 2, 3] : List Nat).length
                    - hapHeaderLength ([1, 2, 3] : List Nat).length, ty⟩) := by
  have h1 := hapEncode_header_and_readback toySnappy [1, 2, 3] []
    HapTextureFormat_RGB_DXT1 HapCompressorNone 0 0 (by decide) (Or.inl rfl)
    (Or.inl rfl) (by decide)
  have h2 := hapEncode_header_and_readback toySnappy [1, 2, 3] [3, 0, 0, 171, 1, 2, 3]
    HapTextureFormat_RGB_DXT1 HapCompressorNone 100 7 (by decide) (Or.inl rfl)
    (Or.inl rfl) (by decide)
  exact ⟨h1.2.1 (by decide), h2.2.2 (by decide)⟩

theorem writeBytes_zero (dst src : List Nat) :
    writeBytes dst 0 src = src ++ dst.drop src.length := by
  simp [writeBytes]

theorem hap_top_4_bits_packed (sc id : Nat) (h : sc < 16) :
    hap_top_4_bits (hap_4_bit_packed_byte sc id) = sc := by
  unfold hap_top_4_bits hap_4_bit_packed_byte
  omega

theorem hap_bottom_4_bits_packed (sc id : Nat) :
    hap_bottom_4_bits (hap_4_bit_packed_byte sc id) = id % 16 := by
  unfold hap_bottom_4_bits hap_4_bit_packed_byte
  omega

theorem hap_4_bit_packed_byte_lt_256 (sc id : Nat) (h : sc < 16) :
    hap_4_bit_packed_byte sc id < 256 := by
  unfold hap_4_bit_packed_byte
  omega

/-- Decoding a well-formed single-section frame stored with compressor
`None`: the payload is copied verbatim to the front of the destination. -/
theorem hapDecode_none_stored_frame (S : SnappyLib) (payload dst : List Nat)
    (hl ty : Nat)
    (hhl : (hl = 4 ∧ 0 < payload.length ∧ payload.length ≤ 16777215)
        ∨ (hl = 8 ∧ payload.length ≤ 4294967287))
    (hty : ty < 256)
    (hcomp : hap_top_4_bits ty = kHapCompressorNone)
    (hfmt : hap_texture_format_constant_for_format_identifier
        (hap_bottom_4_bits ty) ≠ 0)
    (hdst : payload.length ≤ dst.length) :
    HapDecode S (some (hap_write_section_header hl payload.length ty ++ payload))
        true (some dst) true true =
      ⟨.No_Error, some (payload ++ dst.drop payload.length), some payload.length,
       some (hap_texture_format_constant_for_format_identifier
         (hap_bottom_4_bits ty)), false⟩ := by
  have hlen4or8 : hl = 4 ∨ hl = 8 := by
    rcases hhl with ⟨h, -⟩ | ⟨h, -⟩
    · exact Or.inl h
    · exact Or.inr h
  have hty256 : ty % 256 = ty := Nat.mod_eq_of_lt hty
  have hflen : (hap_write_section_header hl payload.length ty ++ payload).length
      = hl + payload.length := by
    rw [List.length_append, hap_write_section_header_length _ _ _ hlen4or8]
  have hparse : hap_read_section_header
      (hap_write_section_header hl payload.length ty ++ payload)
      ((hap_write_section_header hl payload.length ty ++ payload).length % 4294967296)
      = .ok ⟨hl, payload.length, ty⟩ := by
    rw [hflen]
    rcases hhl with ⟨rfl, h1, h2⟩ | ⟨rfl, h2⟩
    · rw [Nat.mod_eq_of_lt (by omega)]
      have := hap_read_section_header_write_four payload.length ty
        (4 + payload.length) payload h1 h2 (le_refl _)
      rwa [hty256] at this
    · rw [Nat.mod_eq_of_lt (by omega)]
      have := hap_read_section_header_write_eight payload.length ty
        (8 + payload.length) payload h2 (le_refl _)
      rwa [hty256] at this
  simp only [HapDecode, hparse]
  rw [if_neg (by simp)]
  rw [if_neg hfmt]
  rw [hcomp]
  rw [if_neg (show ¬((kHapCompressorNone : Nat) = kHapCompressorComplex) from by decide)]
  rw [if_neg (show ¬((kHapCompressorNone : Nat) = kHapCompressorSnappy) from by decide)]
  rw [if_pos rfl]
  rw [hap_write_section_header_append_drop _ _ _ _ hlen4or8]
  simp only [hapDecodeNoneSingle]
  rw [if_neg (by omega)]
  rw [List.take_length, writeBytes_zero]
  simp

/-- Decoding a well-formed single-section frame stored with the Snappy
compressor: the payload is handed to the external decompressor and its output
fills the front of the destination. -/
theorem hapDecode_snappy_stored_frame (S : SnappyLib) (payload dst u : List Nat)
    (hl ty n : Nat)
    (hhl : (hl = 4 ∧ 0 < payload.length ∧ payload.length ≤ 16777215)
        ∨ (hl = 8 ∧ payload.length ≤ 4294967287))
    (hty : ty < 256)
    (hcomp : hap_top_4_bits ty = kHapCompressorSnappy)
    (hfmt : hap_texture_format_constant_for_format_identifier
        (hap_bottom_4_bits ty) ≠ 0)
    (hq : S.uncompressed_length payload = .ok n)
    (hn : n ≤ dst.length)
    (hu : S.uncompress payload = .ok u) :
    HapDecode S (some (hap_write_section_header hl payload.length ty ++ payload))
        true (some dst) true true =
      ⟨.No_Error, some (writeBytes dst 0 u), some u.length,
       some (hap_texture_format_constant_for_format_identifier
         (hap_bottom_4_bits ty)), false⟩ := by
  have hlen4or8 : hl = 4 ∨ hl = 8 := by
    rcases hhl with ⟨h, -⟩ | ⟨h, -⟩
    · exact Or.inl h
    · exact Or.inr h
  have hty256 : ty % 256 = ty := Nat.mod_eq_of_lt hty
  have hflen : (hap_write_section_header hl payload.length ty ++ payload).length
      = hl + payload.length := by
    rw [List.length_append, hap_write_section_header_length _ _ _ hlen4or8]
  have hparse : hap_read_section_header
      (hap_write_section_header hl payload.length ty ++ payload)
      ((hap_write_section_header hl payload.length ty ++ payload).length % 4294967296)
      = .ok ⟨hl, payload.length, ty⟩ := by
    rw [hflen]
    rcases hhl with ⟨rfl, h1, h2⟩ | ⟨rfl, h2⟩
    · rw [Nat.mod_eq_of_lt (by omega)]
      have := hap_read_section_header_write_four payload.length ty
        (4 + payload.length) payload h1 h2 (le_refl _)
      rwa [hty256] at this
    · rw [Nat.mod_eq_of_lt (by omega)]
      have := hap_read_section_header_write_eight payload.length ty
        (8 + payload.length) payload h2 (le_refl _)
      rwa [hty256] at this
  simp only [HapDecode, hparse]
  rw [if_neg (by simp)]
  rw [if_neg hfmt]
  rw [hcomp]
  rw [if_neg (show ¬((kHapCompressorSnappy : Nat) = kHapCompressorComplex) from by decide)]
  rw [if_pos rfl]
  rw [hap_write_section_header_append_drop _ _ _ _ hlen4or8]
  simp only [hapDecodeSnappySingle]
  rw [List.take_length, hq]
  simp only []
  rw [if_neg (by omega), hu]
  simp

/-! ## Claim C1 — encode/decode round-trip -/

/-- C1: for every valid image buffer, recognised texture format and compressor
preference (`None` or Snappy-class), decoding the frame produced by a
successful encode into a sufficiently large destination succeeds, writes the
original bytes to the front of the destination, reports their count, and
resolves the texture format passed to the encoder.  The `hS` hypothesis is
the correctness contract of the external Snappy library on this input (its
compression round-trips and reports the right decompressed length). -/
theorem hapEncode_hapDecode_roundtrip (S : SnappyLib) (x dst frame : List Nat)
    (fmt pref cap used : Nat)
    (hfmt : fmt = HapTextureFormat_RGB_DXT1 ∨ fmt = HapTextureFormat_RGBA_DXT5
        ∨ fmt = HapTextureFormat_YCoCg_DXT5)
    (hpref : pref = HapCompressorNone ∨ pref = HapCompressorSnappy)
    (hlen : x.length + 8 < 4294967296)
    (hdst : x.length ≤ dst.length)
    (hS : ∀ c, S.compress x = some c →
        S.uncompressed_length c = .ok x.length ∧ S.uncompress c = .ok x)
    (henc : HapEncode S (some x) fmt pref true cap true
        = ⟨.No_Error, frame, some used⟩) :
    HapDecode S (some frame) true (some dst) true true =
      ⟨.No_Error, some (x ++ dst.drop x.length), some x.length, some fmt, false⟩ := by
  obtain ⟨hpos, payload, sc, hframe, hused, hst⟩ :=
    HapEncode_ok_shape S x frame fmt pref cap used hpref henc
  have hid_lt : hap_texture_format_identifier_for_format_constant fmt < 16 := by
    rcases hfmt with rfl | rfl | rfl <;> decide
  have hid_mod : hap_texture_format_identifier_for_format_constant fmt % 16
      = hap_texture_format_identifier_for_format_constant fmt :=
    Nat.mod_eq_of_lt hid_lt
  have hround := format_constant_roundtrip fmt hfmt
  have hfmt0 : hap_texture_format_constant_for_format_identifier
      (hap_texture_format_identifier_for_format_constant fmt) ≠ 0 := by
    rcases hfmt with rfl | rfl | rfl <;> decide
  have hsc : sc < 16 := by
    rcases hst with ⟨rfl, -⟩ | ⟨rfl, -⟩ <;> decide
  have hplen : 0 < payload.length ∧ payload.length ≤ x.length := by
    rcases hst with ⟨-, rfl⟩ | ⟨-, -, h1, h2⟩
    · exact ⟨hpos, le_refl _⟩
    · exact ⟨h1, le_of_lt h2⟩
  have hhl : (hapHeaderLength x.length = 4 ∧ 0 < payload.length
        ∧ payload.length ≤ 16777215)
      ∨ (hapHeaderLength x.length = 8 ∧ payload.length ≤ 4294967287) := by
    by_cases hbig : x.length > kHapUInt24Max
    · exact Or.inr ⟨by simp [hapHeaderLength, hbig], by omega⟩
    · refine Or.inl ⟨by simp [hapHeaderLength, hbig], hplen.1, ?_⟩
      simp only [kHapUInt24Max, gt_iff_lt, not_lt] at hbig
      omega
  set ty := hap_4_bit_packed_byte sc
    (hap_texture_format_identifier_for_format_constant fmt) with hty_def
  have htop : hap_top_4_bits ty = sc := hap_top_4_bits_packed _ _ hsc
  have hbot : hap_bottom_4_bits ty
      = hap_texture_format_identifier_for_format_constant fmt := by
    rw [hty_def, hap_bottom_4_bits_packed, hid_mod]
  have hty : ty < 256 := hap_4_bit_packed_byte_lt_256 _ _ hsc
  subst hframe
  rcases hst with ⟨hscn, rfl⟩ | ⟨hscs, hcmp, hpl1, hpl2⟩
  · -- the raw bytes were stored with compressor None
    have hd := hapDecode_none_stored_frame S payload dst
      (hapHeaderLength payload.length) ty hhl hty (by rw [htop, hscn])
      (by rw [hbot]; exact hfmt0) hdst
    rw [hbot, hround] at hd
    exact hd
  · -- a strictly smaller Snappy compression was stored
    obtain ⟨hq, hu⟩ := hS payload hcmp
    have hd := hapDecode_snappy_stored_frame S payload dst x
      (hapHeaderLength x.length) ty x.length hhl hty (by rw [htop, hscs])
      (by rw [hbot]; exact hfmt0) hq hdst hu
    rw [hbot, hround, writeBytes_zero] at hd
    exact hd

/-- Witness for C1: encoding `[7, 7, 7, 7]` (RGB_DXT1, Snappy preference)
with `toySnappy` yields the frame `01 00 00 BB 07`, and decoding it into a
4-byte destination reproduces `[7, 7, 7, 7]`, reports 4 bytes and the
`RGB_DXT1` constant. -/
theorem hapEncode_hapDecode_roundtrip_witness :
    HapEncode toySnappy (some [7, 7, 7, 7]) HapTextureFormat_RGB_DXT1
        HapCompressorSnappy true 40 true = ⟨.No_Error, [1, 0, 0, 187, 7], some 5⟩
    ∧ HapDecode toySnappy (some [1, 0, 0, 187, 7]) true (some [0, 0, 0, 0]) true true
        = ⟨.No_Error, some [7, 7, 7, 7], some 4, some 33776, false⟩ := by
  refine ⟨by decide, ?_⟩
  have h := hapEncode_hapDecode_roundtrip toySnappy [7, 7, 7, 7] [0, 0, 0, 0]
    [1, 0, 0, 187, 7] HapTextureFormat_RGB_DXT1 HapCompressorSnappy 40 5
    (Or.inl rfl) (Or.inr rfl) (by decide) (by decide)
    (fun c hc => by
      rw [show toySnappy.compress [7, 7, 7, 7] = some [7] from rfl] at hc
      cases hc
      exact ⟨by decide, by decide⟩)
    (by decide)
  exact h.trans (by decide)

/-! ## Claim C4 — chunk-count consistency and mandatory tables -/

/-- C4: during the Decode Instructions Container scan each recognised child
implies a chunk count (`sectionImpliedCount`: byte length for the Compressor
Table, length divided by 4 for the Chunk Size and Chunk Offset Tables); a
child whose non-zero implied count differs from a previously recorded
non-zero count makes the scan — and hence the decode — fail `Bad_Frame`; and
a scan that ends without a Compressor Table or without a Chunk Size Table
makes the decode fail `Bad_Frame`. -/
theorem hapDecode_decode_instructions_validation :
    (∀ (view : List Nat) (br : Nat) (st : ScanState) (sh : SectionHeader),
       br ≠ 0 →
       hap_read_section_header view br = .ok sh →
       sectionImpliedCount sh ≠ 0 →
       st.chunk_count ≠ 0 →
       sectionImpliedCount sh ≠ st.chunk_count →
       scanSections view br st = .error .Bad_Frame)
    ∧ (∀ (S : SnappyLib) (input out : List Nat) (h1 h2 : SectionHeader)
         (st : ScanState),
       hap_read_section_header input (input.length % 4294967296) = .ok h1 →
       hap_texture_format_constant_for_format_identifier
           (hap_bottom_4_bits h1.sectionType) ≠ 0 →
       hap_top_4_bits h1.sectionType = kHapCompressorComplex →
       hap_read_section_header (input.drop h1.headerLength)
           ((input.length - h1.headerLength) % 4294967296) = .ok h2 →
       h2.sectionType = kHapSectionDecodeInstructionsContainer →
       scanSections ((input.drop h1.headerLength).drop h2.headerLength)
           h2.sectionLength ⟨none, none, none, 0⟩ = .ok st →
       (st.compressors = none ∨ st.chunk_sizes = none) →
       HapDecode S (some input) true (some out) true true
         = ⟨.Bad_Frame, some out, none,
            some (hap_texture_format_constant_for_format_identifier
              (hap_bottom_4_bits h1.sectionType)), false⟩)
    ∧ (∀ (S : SnappyLib) (input out : List Nat) (h1 h2 : SectionHeader),
       hap_read_section_header input (input.length % 4294967296) = .ok h1 →
       hap_texture_format_constant_for_format_identifier
           (hap_bottom_4_bits h1.sectionType) ≠ 0 →
       hap_top_4_bits h1.sectionType = kHapCompressorComplex →
       hap_read_section_header (input.drop h1.headerLength)
           ((input.length - h1.headerLength) % 4294967296) = .ok h2 →
       h2.sectionType = kHapSectionDecodeInstructionsContainer →
       scanSections ((input.drop h1.headerLength).drop h2.headerLength)
           h2.sectionLength ⟨none, none, none, 0⟩ = .error .Bad_Frame →
       HapDecode S (some input) true (some out) true true
         = ⟨.Bad_Frame, some out, none,
            some (hap_texture_format_constant_for_format_identifier
              (hap_bottom_4_bits h1.sectionType)), false⟩) := by
  refine ⟨?_, ?_, ?_⟩
  · intro view br st sh hbr hparse hscc hcnt hne
    cases br with
    | zero => exact absurd rfl hbr
    | succ k =>
      simp only [scanSections, scanGo, hparse]
      rw [if_neg (by omega)]
      rw [if_pos ⟨hscc, hcnt, hne⟩]
  · intro S input out h1 h2 st hp1 hfmt hcplx hp2 hdic hscan hmiss
    simp only [HapDecode, hp1]
    rw [if_neg (by simp)]
    rw [if_neg hfmt]
    rw [if_pos hcplx]
    simp only [hapDecodeComplex, hp2]
    rw [if_neg (fun hh => hh hdic)]
    rw [hscan]
    rcases st with ⟨oc, os, oo, cnt⟩
    rcases hmiss with h | h
    · simp only at h
      subst h
      rfl
    · simp only at h
      subst h
      cases oc <;> rfl
  · intro S input out h1 h2 hp1 hfmt hcplx hp2 hdic hscan
    simp only [HapDecode, hp1]
    rw [if_neg (by simp)]
    rw [if_neg hfmt]
    rw [if_pos hcplx]
    simp only [hapDecodeComplex, hp2]
    rw [if_neg (fun hh => hh hdic)]
    rw [hscan]

/-- Witness for C4: a scan step seeing a Compressor Table implying 1 chunk
while 2 chunks are already recorded fails; a container holding only a Chunk
Size Table decodes to `Bad_Frame`; a container whose Compressor Table implies
1 chunk but whose Chunk Size Table implies 2 decodes to `Bad_Frame`. -/
theorem hapDecode_decode_instructions_validation_witness :
    scanSections [1, 0, 0, 2, 9] 5 ⟨none, none, none, 2⟩ = .error .Bad_Frame
    ∧ HapDecode toySnappy (some [13, 0, 0, 203, 8, 0, 0, 1, 4, 0, 0, 3, 1, 0, 0, 0, 9])
        true (some [0, 0]) true true
      = ⟨.Bad_Frame, some [0, 0], none, some 33776, false⟩
    ∧ HapDecode toySnappy
        (some [21, 0, 0, 203, 17, 0, 0, 1, 1, 0, 0, 2, 7, 8, 0, 0, 3,
               1, 0, 0, 0, 1, 0, 0, 0]) true (some [0, 0]) true true
      = ⟨.Bad_Frame, some [0, 0], none, some 33776, false⟩ := by
  obtain ⟨ha, hb, hc⟩ := hapDecode_decode_instructions_validation
  refine ⟨ha [1, 0, 0, 2, 9] 5 ⟨none, none, none, 2⟩ ⟨4, 1, 2⟩ (by decide)
    (by decide) (by decide) (by decide) (by decide), ?_, ?_⟩
  · have h := hb toySnappy [13, 0, 0, 203, 8, 0, 0, 1, 4, 0, 0, 3, 1, 0, 0, 0, 9]
      [0, 0] ⟨4, 13, 203⟩ ⟨4, 8, 1⟩ ⟨none, some [1, 0, 0, 0, 9], none, 1⟩
      (by decide) (by decide) (by decide) (by decide) (by decide) (by decide)
      (Or.inl rfl)
    exact h.trans (by decide)
  · have h := hc toySnappy [21, 0, 0, 203, 17, 0, 0, 1, 1, 0, 0, 2, 7, 8, 0, 0, 3,
      1, 0, 0, 0, 1, 0, 0, 0] [0, 0] ⟨4, 21, 203⟩ ⟨4, 17, 1⟩
      (by decide) (by decide) (by decide) (by decide) (by decide) (by decide)
    exact h.trans (by decide)

/-! ## Claim C5 — hoisted capacity check on the multi-chunk path -/

/-- C5: on the Complex (multi-chunk) decode path, when the chunk descriptors
build successfully but their total uncompressed size exceeds the destination
capacity, the decode fails `Buffer_Too_Small` with the destination buffer
untouched, no byte count stored, and the dispatch callback never invoked —
the capacity check happens once, after the descriptors are built and before
any decompression. -/
theorem hapDecode_complex_buffer_too_small (S : SnappyLib) (input out : List Nat)
    (h1 h2 : SectionHeader) (compressors chunk_sizes : List Nat)
    (chunk_offsets : Option (List Nat)) (cnt : Nat)
    (chunks : List HapChunkDecodeInfo) (total : Nat)
    (hp1 : hap_read_section_header input (input.length % 4294967296) = .ok h1)
    (hfmt : hap_texture_format_constant_for_format_identifier
        (hap_bottom_4_bits h1.sectionType) ≠ 0)
    (hcplx : hap_top_4_bits h1.sectionType = kHapCompressorComplex)
    (hp2 : hap_read_section_header (input.drop h1.headerLength)
        ((input.length - h1.headerLength) % 4294967296) = .ok h2)
    (hdic : h2.sectionType = kHapSectionDecodeInstructionsContainer)
    (hscan : scanSections ((input.drop h1.headerLength).drop h2.headerLength)
        h2.sectionLength ⟨none, none, none, 0⟩
      = .ok ⟨some compressors, some chunk_sizes, chunk_offsets, cnt⟩)
    (hcnt : 0 < cnt)
    (hbuild : buildChunks S compressors chunk_sizes chunk_offsets
        ((input.drop h1.headerLength).drop (h2.headerLength + h2.sectionLength))
        cnt 0 0 0 = .ok (chunks, total))
    (hbig : total > out.length) :
    HapDecode S (some input) true (some out) true true
      = ⟨.Buffer_Too_Small, some out, none,
         some (hap_texture_format_constant_for_format_identifier
           (hap_bottom_4_bits h1.sectionType)), false⟩ := by
  simp only [HapDecode, hp1]
  rw [if_neg (by simp), if_neg hfmt, if_pos hcplx]
  simp only [hapDecodeComplex, hp2]
  rw [if_neg (fun hh => hh hdic)]
  simp only [hscan]
  rw [if_pos hcnt]
  simp only [hbuild]
  rw [if_pos hbig]

/-! ## Claim C9 — zero-chunk Complex frames -/

/-- C9: a Complex frame whose container holds both mandatory tables but whose
implied chunk count is zero decodes to `No_Error`, reports 0 bytes written,
leaves the destination untouched and never invokes the dispatch callback. -/
theorem hapDecode_complex_zero_chunks (S : SnappyLib) (input out : List Nat)
    (h1 h2 : SectionHeader) (compressors chunk_sizes : List Nat)
    (chunk_offsets : Option (List Nat))
    (hp1 : hap_read_section_header input (input.length % 4294967296) = .ok h1)
    (hfmt : hap_texture_format_constant_for_format_identifier
        (hap_bottom_4_bits h1.sectionType) ≠ 0)
    (hcplx : hap_top_4_bits h1.sectionType = kHapCompressorComplex)
    (hp2 : hap_read_section_header (input.drop h1.headerLength)
        ((input.length - h1.headerLength) % 4294967296) = .ok h2)
    (hdic : h2.sectionType = kHapSectionDecodeInstructionsContainer)
    (hscan : scanSections ((input.drop h1.headerLength).drop h2.headerLength)
        h2.sectionLength ⟨none, none, none, 0⟩
      = .ok ⟨some compressors, some chunk_sizes, chunk_offsets, 0⟩) :
    HapDecode S (some input) true (some out) true true
      = ⟨.No_Error, some out, some 0,
         some (hap_texture_format_constant_for_format_identifier
           (hap_bottom_4_bits h1.sectionType)), false⟩ := by
  simp only [HapDecode, hp1]
  rw [if_neg (by simp), if_neg hfmt, if_pos hcplx]
  simp only [hapDecodeComplex, hp2]
  rw [if_neg (fun hh => hh hdic)]
  simp only [hscan]
  rfl

/-- Witness for C5: a one-chunk Complex frame whose chunk is 5 uncompressed
bytes, decoded into a 2-byte destination: `Buffer_Too_Small`, destination
untouched, no byte count stored, callback not invoked. -/
theorem hapDecode_complex_buffer_too_small_witness :
    HapDecode toySnappy
        (some [22, 0, 0, 203, 13, 0, 0, 1, 1, 0, 0, 2, 10, 4, 0, 0, 3,
               5, 0, 0, 0, 1, 2, 3, 4, 5]) true (some [0, 0]) true true
      = ⟨.Buffer_Too_Small, some [0, 0], none, some 33776, false⟩ := by
  have h := hapDecode_complex_buffer_too_small toySnappy
    [22, 0, 0, 203, 13, 0, 0, 1, 1, 0, 0, 2, 10, 4, 0, 0, 3,
     5, 0, 0, 0, 1, 2, 3, 4, 5] [0, 0] ⟨4, 22, 203⟩ ⟨4, 13, 1⟩
    [10, 4, 0, 0, 3, 5, 0, 0, 0, 1, 2, 3, 4, 5] [5, 0, 0, 0, 1, 2, 3, 4, 5]
    none 1 [⟨.No_Error, 10, [1, 2, 3, 4, 5], 5, 0, 5⟩] 5
    (by decide) (by decide) (by decide) (by decide) (by decide) (by decide)
    (by decide) (by decide) (by decide)
  exact h.trans (by decide)

/-- Witness for C9: a Complex frame whose container holds a zero-length
Compressor Table and a zero-length Chunk Size Table (both with eight-byte
headers): `No_Error`, 0 bytes reported, destination untouched, callback not
invoked. -/
theorem hapDecode_complex_zero_chunks_witness :
    HapDecode toySnappy
        (some [20, 0, 0, 203, 16, 0, 0, 1, 0, 0, 0, 2, 0, 0, 0, 0,
               0, 0, 0, 3, 0, 0, 0, 0]) true (some [9, 9]) true true
      = ⟨.No_Error, some [9, 9], some 0, some 33776, false⟩ := by
  have h := hapDecode_complex_zero_chunks toySnappy
    [20, 0, 0, 203, 16, 0, 0, 1, 0, 0, 0, 2, 0, 0, 0, 0, 0, 0, 0, 3, 0, 0, 0, 0]
    [9, 9] ⟨4, 20, 203⟩ ⟨4, 16, 1⟩ [0, 0, 0, 3, 0, 0, 0, 0] []
    none (by decide) (by decide) (by decide) (by decide) (by decide) (by decide)
  exact h.trans (by decide)
